import Mathlib

/-!
Verification development for the authentication/token-lifecycle core of the
offmind-mcp repository.

The definitions below are a shallow embedding of:
  - src/firebase_auth.py : FirebaseAuthManager (get_id_token, refresh_id_token,
    oauth_sign_in, exchange_code_for_tokens, save_tokens, ensure_authenticated),
    OAuthCallbackHandler.do_GET and OAuthCallbackServer;
  - src/auth.py : TokenManager.get_token.

Modelling conventions:
  - Time (Python time.time(), floats) is modelled by integer seconds.
  - The token file is modelled by its decoded content: missing file,
    content that json.load fails to decode (empty or invalid JSON), or a
    decoded JSON object whose present fields carry the expected types
    (string tokens, numeric expiry); absent fields are Option.none, which
    models dict.get returning None (or the default 0 for expiresAt).
  - Network calls are modelled by oracles mapping the request payload to an
    optional response; none models a transport error or a non-2xx response,
    i.e. the httpx call or raise_for_status raising.  Each function also
    returns the list of observable side effects it performed, in order
    (network calls, server start/shutdown/close, browser launch).  The
    source never calls server_close, so no embedded function emits
    Effect.serverClose; the constructor exists so that absence of a
    socket-close operation in a trace is expressible.
  - The wait loop of oauth_sign_in (polling every 0.5 s up to the 120 s
    deadline) is modelled by its outcome: the value of server.oauth_result
    when the loop exits, where none means no callback arrived in time.
  - print statements are not modelled; they are not effects any claim
    mentions.
-/

/-- Observable side effects of the authentication core: network calls to the
token-refresh and code-exchange endpoints, lifecycle operations on the local
callback server, and the browser launch. -/
inductive Effect where
  | netRefresh (refreshToken : String)
  | netExchange (code : String)
  | serverStart (port : Nat)
  | serverShutdown
  | serverClose
  | browserOpen
deriving DecidableEq

/-- The network calls contained in an effect trace. -/
def networkCalls (effs : List Effect) : List Effect :=
  effs.filter fun e =>
    match e with
    | .netRefresh _ => true
    | .netExchange _ => true
    | _ => false

/-- The code-exchange calls contained in an effect trace. -/
def exchangeCalls (effs : List Effect) : List Effect :=
  effs.filter fun e =>
    match e with
    | .netExchange _ => true
    | _ => false

/-- The token-refresh calls contained in an effect trace. -/
def refreshCalls (effs : List Effect) : List Effect :=
  effs.filter fun e =>
    match e with
    | .netRefresh _ => true
    | _ => false

/-- The browser launches and callback-server starts contained in an effect
trace (the interactive-sign-in effects). -/
def interactiveCalls (effs : List Effect) : List Effect :=
  effs.filter fun e =>
    match e with
    | .browserOpen => true
    | .serverStart _ => true
    | _ => false

/-- Python truthiness of an optional string: None and the empty string are
falsy, every other string is truthy. -/
def pyTruthyStr : Option String → Bool
  | none => false
  | some s => decide (s ≠ "")

/-- Decoded content of the Firebase token file (token_data in get_id_token):
the three fields read by the code, each possibly absent. -/
structure TokenData where
  idToken : Option String
  refreshToken : Option String
  expiresAt : Option Int
deriving DecidableEq

/-- State of the Firebase token file: missing, present but not decodable as
JSON (empty or malformed content, where json.load raises JSONDecodeError),
or a decoded JSON object. -/
inductive TokenFile where
  | missing
  | undecodable
  | dict (d : TokenData)
deriving DecidableEq

/-- Response of the securetoken refresh endpoint, fields as consumed by
refresh_id_token. -/
structure RefreshResp where
  id_token : String
  refresh_token : String
  expires_in : Int
deriving DecidableEq

/-- Response of the proxy code-exchange endpoint, fields as consumed by
exchange_code_for_tokens. -/
structure ExchangeResp where
  idToken : String
  refreshToken : String
  expiresIn : Int
deriving DecidableEq

/-- The dict stored into server.oauth_result by OAuthCallbackHandler.do_GET:
the first value of each of the code, state and error query parameters. -/
structure CallbackResult where
  code : Option String
  state : Option String
  error : Option String
deriving DecidableEq

/-- The failure modes raised by oauth_sign_in and exchange_code_for_tokens
(each an Exception with a distinct message in the source). -/
inductive AuthError where
  | timeout
  | providerError (msg : String)
  | stateMismatch
  | noCode
  | exchangeFailed
deriving DecidableEq

/-- FirebaseAuthManager.save_tokens: writes the token file as a JSON object
with idToken, refreshToken and expiresAt = time.time() + expires_in.  The
result is the new state of the token file. -/
def save_tokens (id_token refresh_token : String) (expires_in now : Int) :
    TokenFile :=
  .dict ⟨some id_token, some refresh_token, some (now + expires_in)⟩

/-- The read portion of FirebaseAuthManager.get_id_token (lines 99-108):
a missing file yields None, json.load failing yields None via the except
clause, and a decoded object yields its fields. -/
def load_token_data : TokenFile → Option TokenData
  | .missing => none
  | .undecodable => none
  | .dict d => some d

/-- FirebaseAuthManager.refresh_id_token: one POST to the securetoken
endpoint (the refreshO oracle).  On a transport error or non-2xx response
the httpx call raises (Except.error); on success the new tokens are saved
with save_tokens and the new id token is returned. -/
def refresh_id_token (rt : String) (refreshO : String → Option RefreshResp)
    (now : Int) : Except Unit (String × TokenFile) × List Effect :=
  match refreshO rt with
  | none => (.error (), [.netRefresh rt])
  | some resp =>
      (.ok (resp.id_token,
            save_tokens resp.id_token resp.refresh_token resp.expires_in now),
       [.netRefresh rt])

/-- FirebaseAuthManager.get_id_token: returns the stored idToken when
time.time() < expiresAt - 300 (expiresAt defaulting to 0 when absent);
otherwise attempts a refresh when a truthy refreshToken is stored, catching
any refresh failure and returning None; returns None on a missing or
undecodable file.  Result: (returned value, token file after the call,
effects performed). -/
def get_id_token (now : Int) (refreshO : String → Option RefreshResp)
    (file : TokenFile) : Option String × TokenFile × List Effect :=
  match load_token_data file with
  | none => (none, file, [])
  | some d =>
      if now < d.expiresAt.getD 0 - 300 then
        (d.idToken, file, [])
      else
        match d.refreshToken with
        | some rt =>
            if rt ≠ "" then
              match refresh_id_token rt refreshO now with
              | (.ok (tok, file2), effs) => (some tok, file2, effs)
              | (.error _, effs) => (none, file, effs)
            else (none, file, [])
        | none => (none, file, [])

/-- FirebaseAuthManager.exchange_code_for_tokens: one POST to the proxy
exchange endpoint (the exchO oracle); failure raises ExchangeFailed, success
saves the returned tokens and returns the id token. -/
def exchange_code_for_tokens (code : String)
    (exchO : String → Option ExchangeResp) (now : Int) (file : TokenFile) :
    Except AuthError String × TokenFile × List Effect :=
  match exchO code with
  | none => (.error .exchangeFailed, file, [.netExchange code])
  | some resp =>
      (.ok resp.idToken,
       save_tokens resp.idToken resp.refreshToken resp.expiresIn now,
       [.netExchange code])

/-- FirebaseAuthManager.oauth_sign_in: starts the callback server on port
8888, opens the browser, waits for the callback (cb is server.oauth_result
when the wait loop exits; none means timeout), then calls server.shutdown()
(the source never calls server_close()), and checks in order: timeout,
provider error (Python truthiness), state equality with the generated
nonce, presence of a truthy code; finally exchanges the code. -/
def oauth_sign_in (nonce : String) (cb : Option CallbackResult)
    (exchO : String → Option ExchangeResp) (now : Int) (file : TokenFile) :
    Except AuthError String × TokenFile × List Effect :=
  let pre : List Effect := [.serverStart 8888, .browserOpen, .serverShutdown]
  match cb with
  | none => (.error .timeout, file, pre)
  | some r =>
      if pyTruthyStr r.error then
        (.error (.providerError (r.error.getD "")), file, pre)
      else if r.state ≠ some nonce then
        (.error .stateMismatch, file, pre)
      else
        match r.code with
        | some c =>
            if c ≠ "" then
              match exchange_code_for_tokens c exchO now file with
              | (res, file2, effs) => (res, file2, pre ++ effs)
            else (.error .noCode, file, pre)
        | none => (.error .noCode, file, pre)

/-- FirebaseAuthManager.ensure_authenticated: returns get_id_token() when it
is truthy, otherwise falls back to oauth_sign_in. -/
def ensure_authenticated (nonce : String) (cb : Option CallbackResult)
    (exchO : String → Option ExchangeResp)
    (refreshO : String → Option RefreshResp) (now : Int) (file : TokenFile) :
    Except AuthError String × TokenFile × List Effect :=
  match get_id_token now refreshO file with
  | (tok, file1, eff1) =>
      if pyTruthyStr tok then
        (.ok (tok.getD ""), file1, eff1)
      else
        match oauth_sign_in nonce cb exchO now file1 with
        | (res, file2, eff2) => (res, file2, eff1 ++ eff2)

/-- The expires_at field of the TokenManager token file (an ISO-8601 string
in the source): the empty string (falsy), a string datetime.fromisoformat
rejects (ValueError), or a timezone-aware timestamp parsing to time ts. -/
inductive ExpiresField where
  | emptyStr
  | badIso
  | ts (t : Int)
deriving DecidableEq

/-- Decoded content of the TokenManager token file: the two fields read by
TokenManager.get_token, each possibly absent. -/
structure AuthTokenData where
  access_token : Option String
  expires_at : Option ExpiresField
deriving DecidableEq

/-- State of the TokenManager token file. -/
inductive AuthFile where
  | missing
  | undecodable
  | dict (a : AuthTokenData)
deriving DecidableEq

/-- Python truthiness of the expires_at field: absent and the empty string
are falsy; any other string (parseable or not) is truthy. -/
def pyTruthyExpires : Option ExpiresField → Bool
  | none => false
  | some .emptyStr => false
  | some .badIso => true
  | some (.ts _) => true

/-- TokenManager.get_token (src/auth.py): returns the stored access_token
when both fields are truthy and the parsed expiry is strictly in the
future; a fromisoformat ValueError is caught and falls through to None; the
source performs no network or browser call, so the effect trace is always
empty. -/
def get_token (now : Int) (file : AuthFile) : Option String × List Effect :=
  match file with
  | .missing => (none, [])
  | .undecodable => (none, [])
  | .dict a =>
      if pyTruthyStr a.access_token && pyTruthyExpires a.expires_at then
        match a.expires_at with
        | some (.ts t) => if now < t then (a.access_token, []) else (none, [])
        | _ => (none, [])
      else (none, [])

/-- The mutable state of OAuthCallbackServer: the oauth_result slot,
initialised to None in __init__. -/
structure ServerState where
  oauth_result : Option CallbackResult
deriving DecidableEq

/-- params.get(key, [None])[0] over the output of parse_qs: the first value
of the key.  parse_qs omits blank values, so pairs whose value is the empty
string are not produced; requests are modelled post-parse accordingly. -/
def firstParam (q : List (String × String)) (k : String) : Option String :=
  (q.find? fun p => p.1 == k).map fun p => p.2

/-- OAuthCallbackHandler.do_GET: parses the query of the request and stores
the code/state/error triple into server.oauth_result, unconditionally
overwriting any previous value of the slot. -/
def do_GET (_st : ServerState) (q : List (String × String)) : ServerState :=
  { oauth_result :=
      some ⟨firstParam q "code", firstParam q "state", firstParam q "error"⟩ }

/-- The callback server handling a sequence of GET requests in arrival
order, starting from a given slot state. -/
def serve (st : ServerState) (reqs : List (List (String × String))) :
    ServerState :=
  reqs.foldl do_GET st

/-- Claim C1: for every sign-in attempt whose callback result carries a state
value different from the state nonce generated for the attempt, with no
provider error present, oauth_sign_in fails with the CSRF StateMismatch
error and no code-exchange network call is performed. -/
theorem c1_state_mismatch_blocks_exchange
    (nonce : String) (r : CallbackResult)
    (exchO : String → Option ExchangeResp) (now : Int) (file : TokenFile)
    (herr : pyTruthyStr r.error = false) (hstate : r.state ≠ some nonce) :
    (oauth_sign_in nonce (some r) exchO now file).1 =
      .error .stateMismatch ∧
    exchangeCalls (oauth_sign_in nonce (some r) exchO now file).2.2 = [] := by
  unfold oauth_sign_in
  simp [herr, hstate, exchangeCalls]

/-- Concrete instance of c1_state_mismatch_blocks_exchange: callback state
that differs from the nonce, no error parameter. -/
theorem c1_state_mismatch_blocks_exchange_witness :
    (oauth_sign_in "n" (some ⟨some "c", some "x", none⟩)
        (fun _ => none) 0 .missing).1 = .error .stateMismatch ∧
    exchangeCalls (oauth_sign_in "n" (some ⟨some "c", some "x", none⟩)
        (fun _ => none) 0 .missing).2.2 = [] :=
  c1_state_mismatch_blocks_exchange "n" ⟨some "c", some "x", none⟩
    (fun _ => none) 0 .missing (by decide) (by decide)

/-- Claim C4, evaluated at the failing input (no callback arrives before the
deadline): oauth_sign_in raises the timeout error and the trace holds a
serverShutdown but no serverClose — shutdown() only stops the serve loop,
the listening socket bound in OAuthCallbackServer is never closed, so the
port is not freed as the claim states. -/
theorem c4_timeout_shutdown_without_close
    (nonce : String) (exchO : String → Option ExchangeResp) (now : Int)
    (file : TokenFile) :
    (oauth_sign_in nonce none exchO now file).1 = .error .timeout ∧
    (oauth_sign_in nonce none exchO now file).2.2 =
      [.serverStart 8888, .browserOpen, .serverShutdown] ∧
    Effect.serverClose ∉ (oauth_sign_in nonce none exchO now file).2.2 := by
  refine ⟨rfl, rfl, by simp [oauth_sign_in]⟩

/-- Claim C5: starting from a missing token file, with a callback delivering
code abc123 and the matching state, and an exchange oracle answering
idToken X, refreshToken Y, expiresIn 3600, ensure_authenticated returns X
and the stored record holds X, Y and expiry now + 3600. -/
theorem c5_fresh_signin_scenario (nonce : String) (now : Int) :
    ensure_authenticated nonce (some ⟨some "abc123", some nonce, none⟩)
        (fun c => if c = "abc123" then some ⟨"X", "Y", 3600⟩ else none)
        (fun _ => none) now .missing =
      (.ok "X", .dict ⟨some "X", some "Y", some (now + 3600)⟩,
       [.serverStart 8888, .browserOpen, .serverShutdown,
        .netExchange "abc123"]) := by
  simp [ensure_authenticated, get_id_token, load_token_data, oauth_sign_in,
        exchange_code_for_tokens, save_tokens, pyTruthyStr]

/-- Claim C8: save_tokens followed immediately by the load portion of
get_id_token yields exactly the record saved: the same idToken and
refreshToken and the expiresAt computed at save time. -/
theorem c8_save_load_roundtrip (t r : String) (e now : Int) :
    load_token_data (save_tokens t r e now) =
      some ⟨some t, some r, some (now + e)⟩ := rfl

/-- Claim C9 counterexample: the receiver writes server.oauth_result on
every incoming request, so a second request replaces the already-captured
result of the first: after two requests the slot holds the second triple,
which differs from the first. -/
theorem c9_second_request_replaces_result :
    (serve ⟨none⟩ [[("code", "c1"), ("state", "s1")],
                   [("code", "c2"), ("state", "s2")]]).oauth_result =
      some ⟨some "c2", some "s2", none⟩ ∧
    (serve ⟨none⟩ [[("code", "c1"), ("state", "s1")]]).oauth_result =
      some ⟨some "c1", some "s1", none⟩ ∧
    (⟨some "c2", some "s2", none⟩ : CallbackResult) ≠
      ⟨some "c1", some "s1", none⟩ :=
  ⟨rfl, rfl, by decide⟩

/-- Claim C9 amended: each incoming GET request overwrites the
pending-result slot, so after any request sequence the slot holds the
parameters of the last request (last write wins), and with no request the
slot is unchanged; the receiver does not enforce a single write. -/
theorem c9_amended_last_write_wins (st : ServerState)
    (reqs : List (List (String × String))) (q : List (String × String)) :
    (serve st (reqs ++ [q])).oauth_result =
      some ⟨firstParam q "code", firstParam q "state", firstParam q "error"⟩ ∧
    (serve st []).oauth_result = st.oauth_result := by
  constructor
  · simp [serve, List.foldl_append, do_GET]
  · rfl

/-- Helper: TokenManager.get_token performs no side effect on any file
state (its Lean embedding emits no effect because the source performs no
network or browser call on any path). -/
theorem get_token_no_effects (m : Int) (f : AuthFile) :
    (get_token m f).2 = [] := by
  cases f with
  | missing => rfl
  | undecodable => rfl
  | dict a =>
      simp only [get_token]
      split
      · split
        · split <;> rfl
        · rfl
      · rfl

/-- Helper: the effect trace of get_id_token is empty, or consists of one
refresh call made because the stored record is not time-valid and holds a
truthy refreshToken. -/
theorem get_id_token_effects (now : Int)
    (refreshO : String → Option RefreshResp) (file : TokenFile) :
    (get_id_token now refreshO file).2.2 = [] ∨
    ∃ d rt, file = TokenFile.dict d ∧ d.refreshToken = some rt ∧ rt ≠ "" ∧
      ¬ now < d.expiresAt.getD 0 - 300 ∧
      (get_id_token now refreshO file).2.2 = [Effect.netRefresh rt] := by
  cases file with
  | missing => exact Or.inl rfl
  | undecodable => exact Or.inl rfl
  | dict d =>
      by_cases hv : now < d.expiresAt.getD 0 - 300
      · exact Or.inl (by simp [get_id_token, load_token_data, hv])
      · rcases hrt : d.refreshToken with _ | rt
        · exact Or.inl (by simp [get_id_token, load_token_data, hv, hrt])
        · by_cases hne : rt = ""
          · exact Or.inl
              (by simp [get_id_token, load_token_data, hv, hrt, hne])
          · refine Or.inr ⟨d, rt, rfl, hrt, hne, hv, ?_⟩
            cases ho : refreshO rt <;>
              simp [get_id_token, load_token_data, hv, hrt, hne,
                    refresh_id_token, ho]

/-- Claim C2 counterexample: on a stored record whose token is expired and
which holds a refreshToken, get_id_token performs a refresh network call,
so the getter does perform network I/O in some execution. -/
theorem c2_get_id_token_performs_network_call :
    (get_id_token 1000 (fun _ => some ⟨"new", "r2", 3600⟩)
        (.dict ⟨some "old", some "r", some 100⟩)).2.2 =
      [Effect.netRefresh "r"] ∧
    networkCalls [Effect.netRefresh "r"] ≠ [] :=
  ⟨rfl, by decide⟩

/-- Claim C2 amended: neither getter launches a browser or starts the
callback server; TokenManager.get_token performs no network I/O at all;
FirebaseAuthManager.get_id_token performs no network I/O except a single
token-refresh call, made only when the stored record is not time-valid
(within the 300 second buffer) and holds a truthy refreshToken. -/
theorem c2_amended_getters_network_profile (now : Int)
    (refreshO : String → Option RefreshResp) (file : TokenFile) :
    interactiveCalls (get_id_token now refreshO file).2.2 = [] ∧
    ((get_id_token now refreshO file).2.2 = [] ∨
      ∃ d rt, file = TokenFile.dict d ∧ d.refreshToken = some rt ∧
        rt ≠ "" ∧ ¬ now < d.expiresAt.getD 0 - 300 ∧
        (get_id_token now refreshO file).2.2 = [Effect.netRefresh rt]) ∧
    (∀ (m : Int) (f : AuthFile), (get_token m f).2 = []) := by
  refine ⟨?_, get_id_token_effects now refreshO file,
          fun m f => get_token_no_effects m f⟩
  rcases get_id_token_effects now refreshO file with h | ⟨d, rt, _, _, _, _, h⟩ <;>
    rw [h] <;> rfl

/-- Claim C3: with the 300 second skew buffer of get_id_token, a stored
record whose expiresAt is more than the buffer in the future yields the
stored idToken with no network call and an unchanged file; when expiresAt
is in the past or within the buffer, the stored token is never served from
cache: any returned token comes with a network call in the trace. -/
theorem c3_skew_buffered_validity (now : Int)
    (refreshO : String → Option RefreshResp) (d : TokenData) (ea : Int)
    (tok : String) (hea : d.expiresAt = some ea)
    (htok : d.idToken = some tok) :
    (now < ea - 300 →
      get_id_token now refreshO (.dict d) = (some tok, .dict d, [])) ∧
    (¬ now < ea - 300 →
      (get_id_token now refreshO (.dict d)).1 = some tok →
      networkCalls (get_id_token now refreshO (.dict d)).2.2 ≠ []) := by
  constructor
  · intro h
    simp [get_id_token, load_token_data, hea, htok, h]
  · intro h hres
    rcases hrt : d.refreshToken with _ | rt
    · simp [get_id_token, load_token_data, hea, h, hrt] at hres
    · by_cases hne : rt = ""
      · simp [get_id_token, load_token_data, hea, h, hrt, hne] at hres
      · cases ho : refreshO rt <;>
          simp [get_id_token, load_token_data, hea, h, hrt, hne,
                refresh_id_token, ho, networkCalls]

/-- Concrete instance of c3_skew_buffered_validity: a record expiring at
10000 read at time 0, stored token tok, no refresh oracle. -/
theorem c3_skew_buffered_validity_witness :
    (⟨some "tok", none, some 10000⟩ : TokenData).expiresAt = some 10000 ∧
    (⟨some "tok", none, some 10000⟩ : TokenData).idToken = some "tok" ∧
    ((0 : Int) < 10000 - 300 →
      get_id_token 0 (fun _ => none) (.dict ⟨some "tok", none, some 10000⟩) =
        (some "tok", .dict ⟨some "tok", none, some 10000⟩, [])) ∧
    (¬ (0 : Int) < 10000 - 300 →
      (get_id_token 0 (fun _ => none)
          (.dict ⟨some "tok", none, some 10000⟩)).1 = some "tok" →
      networkCalls (get_id_token 0 (fun _ => none)
          (.dict ⟨some "tok", none, some 10000⟩)).2.2 ≠ []) :=
  ⟨rfl, rfl,
   c3_skew_buffered_validity 0 (fun _ => none) ⟨some "tok", none, some 10000⟩
     10000 "tok" rfl rfl⟩

/-- Helper: the effect trace of oauth_sign_in is the server-start, browser,
server-shutdown sequence, possibly followed by one code-exchange call; in
particular it always starts the callback server and never makes a refresh
call. -/
theorem oauth_sign_in_trace (nonce : String) (cb : Option CallbackResult)
    (exchO : String → Option ExchangeResp) (now : Int) (file : TokenFile) :
    (oauth_sign_in nonce cb exchO now file).2.2 =
      [.serverStart 8888, .browserOpen, .serverShutdown] ∨
    ∃ c, (oauth_sign_in nonce cb exchO now file).2.2 =
      [.serverStart 8888, .browserOpen, .serverShutdown, .netExchange c] := by
  cases cb with
  | none => exact Or.inl rfl
  | some r =>
      by_cases he : pyTruthyStr r.error
      · exact Or.inl (by simp [oauth_sign_in, he])
      · by_cases hs : r.state = some nonce
        · rcases hc : r.code with _ | c
          · exact Or.inl (by simp [oauth_sign_in, he, hs, hc])
          · by_cases hcne : c = ""
            · exact Or.inl (by simp [oauth_sign_in, he, hs, hc, hcne])
            · refine Or.inr ⟨c, ?_⟩
              cases ho : exchO c <;>
                simp [oauth_sign_in, he, hs, hc, hcne,
                      exchange_code_for_tokens, ho]
        · exact Or.inl (by simp [oauth_sign_in, he, hs])

/-- Claim C6 counterexample: a token file whose content is missing the
required idToken and expiresAt fields but holds a refreshToken does not
make the getter return None: the refresh succeeds and a token is
returned. -/
theorem c6_corrupt_record_not_absent :
    (get_id_token 1000 (fun _ => some ⟨"T", "R", 3600⟩)
        (.dict ⟨none, some "r", none⟩)).1 = some "T" ∧
    some "T" ≠ (none : Option String) :=
  ⟨rfl, by decide⟩

/-- Claim C6 amended: a missing, empty or undecodable token file makes both
getters return None without raising and without side effects, and a decoded
record missing required fields (idToken or expiresAt for get_id_token,
access_token or expires_at for get_token) never raises and never yields a
stored token: get_token returns None; get_id_token returns None with no
side effects when the record is still time-valid (serving its missing
idToken) and also when it is not time-valid with an absent or empty
refreshToken, while a record that is not time-valid — in particular one
missing expiresAt — with a non-empty refreshToken triggers exactly one
refresh attempt whose outcome (a fresh token or None) is returned. -/
theorem c6_amended_fail_soft (now : Int)
    (refreshO : String → Option RefreshResp) (d : TokenData) (m : Int)
    (a : AuthTokenData) (hnow : 0 ≤ now)
    (hmiss : d.idToken = none ∨ d.expiresAt = none)
    (hma : a.access_token = none ∨ a.expires_at = none) :
    get_id_token now refreshO .missing = (none, .missing, []) ∧
    get_id_token now refreshO .undecodable = (none, .undecodable, []) ∧
    (now < d.expiresAt.getD 0 - 300 →
      get_id_token now refreshO (.dict d) = (none, .dict d, [])) ∧
    (¬ now < d.expiresAt.getD 0 - 300 →
      (∃ rt, d.refreshToken = some rt ∧ rt ≠ "" ∧
        get_id_token now refreshO (.dict d) =
          ((refreshO rt).map RefreshResp.id_token,
           match refreshO rt with
           | some resp =>
               save_tokens resp.id_token resp.refresh_token
                 resp.expires_in now
           | none => .dict d,
           [Effect.netRefresh rt])) ∨
      (pyTruthyStr d.refreshToken = false ∧
        get_id_token now refreshO (.dict d) = (none, .dict d, []))) ∧
    get_token m .missing = (none, []) ∧
    get_token m .undecodable = (none, []) ∧
    get_token m (.dict a) = (none, []) := by
  refine ⟨rfl, rfl, ?_, ?_, rfl, rfl, ?_⟩
  · intro hv
    have hid : d.idToken = none := by
      rcases hmiss with h | h
      · exact h
      · rw [h] at hv
        simp only [Option.getD_none] at hv
        omega
    simp [get_id_token, load_token_data, hv, hid]
  · intro hv
    rcases hrt : d.refreshToken with _ | rt
    · exact Or.inr ⟨by simp [pyTruthyStr, hrt],
        by simp [get_id_token, load_token_data, hv, hrt]⟩
    · by_cases hne : rt = ""
      · subst hne
        exact Or.inr ⟨by simp [pyTruthyStr, hrt],
          by simp [get_id_token, load_token_data, hv, hrt]⟩
      · refine Or.inl ⟨rt, rfl, hne, ?_⟩
        cases ho : refreshO rt <;>
          simp [get_id_token, load_token_data, hv, hrt, hne,
                refresh_id_token, ho]
  · rcases hma with h | h <;>
      simp [get_token, h, pyTruthyStr, pyTruthyExpires]

/-- Concrete instance of c6_amended_fail_soft: time 0, failing refresh
oracle, records with every field absent. -/
theorem c6_amended_fail_soft_witness :
    (0 : Int) ≤ 0 ∧
    (⟨none, none, none⟩ : TokenData).idToken = none ∧
    (⟨none, none⟩ : AuthTokenData).access_token = none ∧
    (get_id_token 0 (fun _ => none) .missing = (none, .missing, []) ∧
     get_id_token 0 (fun _ => none) .undecodable = (none, .undecodable, []) ∧
     ((0 : Int) <
        (⟨none, none, none⟩ : TokenData).expiresAt.getD 0 - 300 →
       get_id_token 0 (fun _ => none) (.dict ⟨none, none, none⟩) =
         (none, .dict ⟨none, none, none⟩, [])) ∧
     (¬ (0 : Int) <
        (⟨none, none, none⟩ : TokenData).expiresAt.getD 0 - 300 →
       (∃ rt, (⟨none, none, none⟩ : TokenData).refreshToken = some rt ∧
         rt ≠ "" ∧
         get_id_token 0 (fun _ => none) (.dict ⟨none, none, none⟩) =
           (((fun _ => (none : Option RefreshResp)) rt).map
              RefreshResp.id_token,
            match (fun _ => (none : Option RefreshResp)) rt with
            | some resp =>
                save_tokens resp.id_token resp.refresh_token
                  resp.expires_in 0
            | none => .dict ⟨none, none, none⟩,
            [Effect.netRefresh rt])) ∨
       (pyTruthyStr (⟨none, none, none⟩ : TokenData).refreshToken = false ∧
         get_id_token 0 (fun _ => none) (.dict ⟨none, none, none⟩) =
           (none, .dict ⟨none, none, none⟩, []))) ∧
     get_token 0 .missing = (none, []) ∧
     get_token 0 .undecodable = (none, []) ∧
     get_token 0 (.dict ⟨none, none⟩) = (none, [])) :=
  ⟨le_refl 0, rfl, rfl,
   c6_amended_fail_soft 0 (fun _ => none) ⟨none, none, none⟩ 0 ⟨none, none⟩
     (le_refl 0) (Or.inl rfl) (Or.inl rfl)⟩

/-- Claim C7: when the stored record is expired and the refresh call fails,
ensure_authenticated makes exactly one refresh call (no automatic retry),
starts a fresh interactive sign-in, and its outcome is the outcome of that
interactive sign-in, not the stale stored token. -/
theorem c7_failed_refresh_falls_back (nonce : String)
    (cb : Option CallbackResult) (exchO : String → Option ExchangeResp)
    (refreshO : String → Option RefreshResp) (d : TokenData) (ea : Int)
    (rt : String) (now : Int) (hea : d.expiresAt = some ea)
    (hexp : ¬ now < ea - 300) (hrt : d.refreshToken = some rt)
    (hne : rt ≠ "") (hfail : refreshO rt = none) :
    refreshCalls
        (ensure_authenticated nonce cb exchO refreshO now (.dict d)).2.2 =
      [Effect.netRefresh rt] ∧
    Effect.serverStart 8888 ∈
      (ensure_authenticated nonce cb exchO refreshO now (.dict d)).2.2 ∧
    (ensure_authenticated nonce cb exchO refreshO now (.dict d)).1 =
      (oauth_sign_in nonce cb exchO now (.dict d)).1 := by
  have hg : get_id_token now refreshO (.dict d) =
      (none, .dict d, [Effect.netRefresh rt]) := by
    simp [get_id_token, load_token_data, hea, hexp, hrt, hne,
          refresh_id_token, hfail]
  rcases oauth_sign_in_trace nonce cb exchO now (.dict d) with h2 | ⟨c, h2⟩ <;>
    simp [ensure_authenticated, hg, pyTruthyStr, h2, refreshCalls]

/-- Concrete instance of c7_failed_refresh_falls_back: record expired at
100 read at time 1000, refresh oracle failing, no callback arriving. -/
theorem c7_failed_refresh_falls_back_witness :
    (⟨some "stale", some "r", some 100⟩ : TokenData).expiresAt = some 100 ∧
    ¬ (1000 : Int) < 100 - 300 ∧
    (⟨some "stale", some "r", some 100⟩ : TokenData).refreshToken =
      some "r" ∧
    "r" ≠ "" ∧
    ((fun _ => (none : Option RefreshResp)) "r" = none) ∧
    (refreshCalls
        (ensure_authenticated "n" none (fun _ => none) (fun _ => none) 1000
          (.dict ⟨some "stale", some "r", some 100⟩)).2.2 =
      [Effect.netRefresh "r"] ∧
     Effect.serverStart 8888 ∈
       (ensure_authenticated "n" none (fun _ => none) (fun _ => none) 1000
         (.dict ⟨some "stale", some "r", some 100⟩)).2.2 ∧
     (ensure_authenticated "n" none (fun _ => none) (fun _ => none) 1000
         (.dict ⟨some "stale", some "r", some 100⟩)).1 =
       (oauth_sign_in "n" none (fun _ => none) 1000
         (.dict ⟨some "stale", some "r", some 100⟩)).1) :=
  ⟨rfl, by decide, rfl, by decide, rfl,
   c7_failed_refresh_falls_back "n" none (fun _ => none) (fun _ => none)
     ⟨some "stale", some "r", some 100⟩ 100 "r" 1000 rfl (by decide) rfl
     (by decide) rfl⟩

/-- Claim C10: a decoded token file lacking the expiresAt field is treated
as already expired (the expiry defaults to 0, and time.time() is
non-negative): the stored idToken is never served from cache; a truthy
refreshToken triggers one refresh whose outcome is returned, otherwise the
result is None with no effects. -/
theorem c10_missing_expiry_treated_expired (now : Int)
    (refreshO : String → Option RefreshResp) (d : TokenData)
    (hnow : 0 ≤ now) (hea : d.expiresAt = none) :
    (∃ rt, d.refreshToken = some rt ∧ rt ≠ "" ∧
        get_id_token now refreshO (.dict d) =
          ((refreshO rt).map RefreshResp.id_token,
           match refreshO rt with
           | some resp =>
               save_tokens resp.id_token resp.refresh_token
                 resp.expires_in now
           | none => .dict d,
           [Effect.netRefresh rt])) ∨
    (pyTruthyStr d.refreshToken = false ∧
      get_id_token now refreshO (.dict d) = (none, .dict d, [])) := by
  have hv : ¬ now < d.expiresAt.getD 0 - 300 := by
    rw [hea]
    simp only [Option.getD_none]
    omega
  rcases hrt : d.refreshToken with _ | rt
  · exact Or.inr ⟨by simp [pyTruthyStr, hrt],
      by simp [get_id_token, load_token_data, hv, hrt]⟩
  · by_cases hne : rt = ""
    · subst hne
      exact Or.inr ⟨by simp [pyTruthyStr, hrt],
        by simp [get_id_token, load_token_data, hv, hrt]⟩
    · refine Or.inl ⟨rt, rfl, hne, ?_⟩
      cases ho : refreshO rt <;>
        simp [get_id_token, load_token_data, hv, hrt, hne,
              refresh_id_token, ho]

/-- Concrete instance of c10_missing_expiry_treated_expired: record with a
stored idToken but no expiresAt and no refreshToken, read at time 5. -/
theorem c10_missing_expiry_treated_expired_witness :
    (0 : Int) ≤ 5 ∧
    (⟨some "x", none, none⟩ : TokenData).expiresAt = none ∧
    ((∃ rt, (⟨some "x", none, none⟩ : TokenData).refreshToken = some rt ∧
        rt ≠ "" ∧
        get_id_token 5 (fun _ => none) (.dict ⟨some "x", none, none⟩) =
          (((fun _ => (none : Option RefreshResp)) rt).map
             RefreshResp.id_token,
           match (fun _ => (none : Option RefreshResp)) rt with
           | some resp =>
               save_tokens resp.id_token resp.refresh_token resp.expires_in 5
           | none => .dict ⟨some "x", none, none⟩,
           [Effect.netRefresh rt])) ∨
     (pyTruthyStr (⟨some "x", none, none⟩ : TokenData).refreshToken =
        false ∧
      get_id_token 5 (fun _ => none) (.dict ⟨some "x", none, none⟩) =
        (none, .dict ⟨some "x", none, none⟩, []))) :=
  ⟨by decide, rfl,
   c10_missing_expiry_treated_expired 5 (fun _ => none) ⟨some "x", none, none⟩
     (by decide) rfl⟩
